import Mathlib

/-!
Verification development for the custom LaTeX-to-text formatter in
`src/format.py` (class `CustomLatexNodes2Text`).

The renderer walks a parsed node tree and produces plain text; several
handlers make stochastic choices (via `random.randint(0, 1)` and
`random.choices`).  We embed the stochastic source as an explicit oracle
stream of natural numbers: each primitive draw consumes one element of the
stream, and theorems quantify over all streams, i.e. over all sequences of
stochastic outcomes.
-/

namespace FormatPy

/-- Oracle stream for the stochastic choices made during rendering. -/
abbrev Rng := List Nat

/-- Consume one oracle value (0 when the stream is exhausted). -/
def drawOracle (r : Rng) : Nat × Rng :=
  match r with
  | [] => (0, [])
  | x :: xs => (x, xs)

/-- Models `random.randint(0, 1)`: one draw, reduced to a bit. -/
def randint01 (r : Rng) : Nat × Rng :=
  let p := drawOracle r
  (p.1 % 2, p.2)

/-- Models the outcome of `random.choices(options, weights)`: the oracle
selects the index of the chosen option (the weights only shape the
distribution, which no claim here depends on). -/
def randChoice (opts : List String) (r : Rng) : String × Rng :=
  let p := drawOracle r
  (opts.getD (p.1 % opts.length) "", p.2)

/-- Models Python `str.strip()`: drop whitespace from both ends. -/
def pyStrip (cs : List Char) : List Char :=
  ((cs.dropWhile Char.isWhitespace).reverse.dropWhile Char.isWhitespace).reverse

/-- The operator characters used by `needs_parentheses` in
`_custom_sqrt_handler` and `is_complex` in `_custom_frac_handler`
(src/format.py lines 144 and 259): `+ - * / ^` and a space. -/
def opChars : List Char := ['+', '-', '*', '/', '^', ' ']

/-- `needs_parentheses(text)` from `_custom_sqrt_handler`
(src/format.py lines 142-145): true iff the text contains one of the
operator characters (Python `any(op in text for op in operators)`). -/
def needsParentheses (s : String) : Bool :=
  opChars.any (fun c => s.toList.contains c)

/-- `is_complex(text)` from `_custom_frac_handler`
(src/format.py lines 257-260): like `needsParentheses` but on the
stripped text (`op in text.strip()`). -/
def isComplex (s : String) : Bool :=
  opChars.any (fun c => (pyStrip s.toList).contains c)

/-- Value of a list of decimal digit characters. -/
def digitsToNat (cs : List Char) : Nat :=
  cs.foldl (fun a c => a * 10 + (c.toNat - 48)) 0

/-- The exact value of a finite Python float, kept as an unreduced
fraction `num / den`.  Every constructor below produces a positive
denominator (a power of ten).  The float operations the handler performs
on these values (parsing a decimal literal, comparing with 2 and 0,
taking the reciprocal, printing) are exact rational operations on the
values the claims exercise, so an exact fraction model is faithful
there. -/
structure PyNum where
  num : Int
  den : Nat
deriving DecidableEq

/-- Negation (for a leading `-` sign in the literal). -/
def PyNum.neg (v : PyNum) : PyNum := ⟨-v.num, v.den⟩

/-- The reciprocal `1.0 / v` (src/format.py line 174), defined for
`v.num ≠ 0`; the denominator stays positive. -/
def PyNum.inv (v : PyNum) : PyNum :=
  if v.num < 0 then ⟨-(v.den : Int), v.num.natAbs⟩ else ⟨(v.den : Int), v.num.natAbs⟩

/-- The comparison `radicand == 2` at src/format.py line 166 (`None == 2`
is false in Python): a fraction with positive denominator equals 2 iff
its numerator is twice its denominator. -/
def floatEqTwo : Option PyNum → Bool
  | none => false
  | some v => v.num == 2 * (v.den : Int)

/-- Decimal mantissa of a float literal: `digits`, `digits.digits`,
`digits.` or `.digits` (at least one digit overall). -/
def parseDec (cs : List Char) : Option PyNum :=
  let ip := cs.takeWhile Char.isDigit
  let rest := cs.dropWhile Char.isDigit
  match rest with
  | [] => if ip.isEmpty then none else some ⟨(digitsToNat ip : Int), 1⟩
  | '.' :: fp =>
      if fp.all Char.isDigit && !(ip.isEmpty && fp.isEmpty) then
        some ⟨(digitsToNat (ip ++ fp) : Int), 10 ^ fp.length⟩
      else none
  | _ => none

/-- Signed integer exponent of a float literal. -/
def parseExpPart (cs : List Char) : Option Int :=
  match cs with
  | '+' :: t => if !t.isEmpty && t.all Char.isDigit then some ((digitsToNat t : Int)) else none
  | '-' :: t => if !t.isEmpty && t.all Char.isDigit then some (-(digitsToNat t : Int)) else none
  | t => if !t.isEmpty && t.all Char.isDigit then some ((digitsToNat t : Int)) else none

/-- Scale a fraction by `10 ^ e` for a signed exponent `e`. -/
def scaleTen (v : PyNum) (e : Int) : PyNum :=
  if 0 ≤ e then ⟨v.num * (10 ^ e.toNat : Nat), v.den⟩
  else ⟨v.num, v.den * 10 ^ (-e).toNat⟩

/-- Unsigned float literal, with optional `e`/`E` exponent. -/
def pyFloatCore (cs : List Char) : Option PyNum :=
  let mant := cs.takeWhile (fun c => !(c == 'e' || c == 'E'))
  let rest := cs.dropWhile (fun c => !(c == 'e' || c == 'E'))
  match rest with
  | [] => parseDec mant
  | _ :: ex =>
      match parseDec mant, parseExpPart ex with
      | some m, some e => some (scaleTen m e)
      | _, _ => none

/-- Models the Python built-in `float(text)` used at src/format.py line 162
to parse the root index: surrounding whitespace is stripped, then an
optional sign and a decimal mantissa with optional exponent are read;
any other input raises `ValueError`, modelled as `none`.  The IEEE
special literals (`inf`, `nan`) and digit-group underscores are outside
this exact-fraction model; no claim exercises them. -/
def pyFloat (s : String) : Option PyNum :=
  match pyStrip s.toList with
  | [] => none
  | '+' :: t => pyFloatCore t
  | '-' :: t => (pyFloatCore t).map PyNum.neg
  | cs => pyFloatCore cs

/-- Decimal digits of the fraction `rem / den` (with `rem < den`), up to
`fuel` digits; 17 digits suffice for every double whose decimal
expansion terminates. -/
def fracDigitsAux (den : Nat) : Nat → Nat → List Char
  | 0, _ => []
  | _ + 1, 0 => []
  | fuel + 1, rem =>
      let r10 := rem * 10
      Char.ofNat (48 + r10 / den) :: fracDigitsAux den fuel (r10 % den)

/-- Nonnegative case of `pyFloatStr`. -/
def pyFloatStrNN (v : PyNum) : String :=
  let n := v.num.toNat / v.den
  let rem := v.num.toNat % v.den
  let ds := fracDigitsAux v.den 17 rem
  let frac := if ds.isEmpty then "0" else String.mk ds
  String.mk (Nat.toDigits 10 n) ++ "." ++ frac

/-- Models the Python `str()` applied to the float `1.0 / radicand` at
src/format.py line 176: positional decimal notation with at least one
fractional digit (`str(2.0) = "2.0"`, `str(0.5) = "0.5"`).  The model is
exact on values whose decimal expansion terminates within 17 digits and
which Python prints positionally; the claims only evaluate it at `1/2`. -/
def pyFloatStr (v : PyNum) : String :=
  if v.num < 0 then "-" ++ pyFloatStrNN v.neg else pyFloatStrNN v

/-- `str(x).split('.')[1] if '.' in str(x) else ""`
(src/format.py line 176): the text between the first and second dot. -/
def decimalPartOf (s : String) : String :=
  let cs := s.toList
  if cs.contains '.' then
    String.mk (((cs.dropWhile (fun c => c != '.')).drop 1).takeWhile (fun c => c != '.'))
  else ""

mutual
/-- A node of the parsed tree (the renderer's input; produced by the
parsing collaborator).  `text` is a chars/literal node, `group` a braces
group (rendered as its children concatenated), `macroN` a macro node
carrying its name and parsed-argument record. -/
inductive Node where
  | text : String → Node
  | group : NodeList → Node
  | macroN : String → Argd → Node

/-- An ordered sequence of nodes. -/
inductive NodeList where
  | nil : NodeList
  | cons : Node → NodeList → NodeList

/-- The `nodeargd` field of a macro node: either absent (`None` in
Python) or an `argnlist`. -/
inductive Argd where
  | noArgd : Argd
  | withArgs : ArgList → Argd

/-- The `argnlist`: an ordered list of entries. -/
inductive ArgList where
  | nil : ArgList
  | cons : Arg → ArgList → ArgList

/-- One `argnlist` entry: `None` (a missing optional argument) or a
node. -/
inductive Arg where
  | absent : Arg
  | present : Node → Arg
end

/-- The `_greek_letters()` dictionary (src/format.py lines 311-322). -/
def greekTable : List (String × String) :=
  [("alpha", "α"), ("beta", "β"), ("gamma", "γ"), ("delta", "δ"), ("epsilon", "ε"),
   ("varepsilon", "ϵ"), ("zeta", "ζ"), ("eta", "η"), ("theta", "θ"), ("vartheta", "ϑ"),
   ("iota", "ι"), ("kappa", "κ"), ("varkappa", "ϰ"), ("lambda", "λ"), ("mu", "μ"),
   ("nu", "ν"), ("xi", "ξ"), ("varpi", "ϖ"), ("rho", "ρ"), ("varrho", "ϱ"),
   ("sigma", "σ"), ("varsigma", "ς"), ("tau", "τ"), ("upsilon", "υ"), ("phi", "φ"),
   ("varphi", "ϕ"), ("chi", "χ"), ("psi", "ψ"), ("omega", "ω"),
   ("Gamma", "Γ"), ("Delta", "Δ"), ("Theta", "Θ"), ("Lambda", "Λ"), ("Xi", "Ξ"),
   ("Pi", "Π"), ("Sigma", "Σ"), ("Upsilon", "Υ"), ("Phi", "Φ"), ("Psi", "Ψ"),
   ("Omega", "Ω")]

/-- `self._greek_letters().get(name, name)` (src/format.py line 326). -/
def greekSym (name : String) : String :=
  (greekTable.lookup name).getD name

/-- Pure part of `_custom_sqrt_handler` (src/format.py lines 155-245),
after the stochastic `sqrt_rng` draw and the rendering of the root index
and radicand: given the already-drawn `sqrt_rng` bit `sq`, the rendered
index text (or `none` when the optional argument is absent or the
argument list has a single entry) and the rendered radicand `content`,
produce the output text, drawing `exp_rng` and `decimal_rng` exactly
where the code does.  A parsed index of 0 takes the `ZeroDivisionError`
fallback of lines 183-184 (so `decimal_rng` is not drawn there, exactly
as in the code, where the exception is raised before that draw). -/
def sqrtFormat (sq : Nat) (rootIndex : Option String) (content : String) (r : Rng) :
    String × Rng :=
  match rootIndex with
  | some idx =>
      let radicand := pyFloat idx
      if floatEqTwo radicand ∧ sq = 0 then ("sqrt(" ++ content ++ ")", r)
      else
        let e := randint01 r
        let ev : String × Rng :=
          match radicand with
          | none => ("(1/" ++ idx ++ ")", e.2)
          | some v =>
              if v.num = 0 then ("(1/" ++ idx ++ ")", e.2)
              else
                let s := pyFloatStr v.inv
                let dp := decimalPartOf s
                let d := randint01 e.2
                (if dp.length ≤ 5 ∧ d.1 = 0 then s else "(1/" ++ idx ++ ")", d.2)
        let c := if needsParentheses content then "(" ++ content ++ ")" else content
        (c ++ (if e.1 = 0 then "^" else "**") ++ ev.1, ev.2)
  | none =>
      if sq = 0 then ("sqrt(" ++ content ++ ")", r)
      else
        let e := randint01 r
        let d := randint01 e.2
        let ev := if d.1 = 0 then "0.5" else "(1/2)"
        let c := if needsParentheses content then "(" ++ content ++ ")" else content
        (c ++ (if e.1 = 0 then "^" else "**") ++ ev, d.2)

mutual
/-- Render a single node.  The `text` and `group` cases are the
dispatch of the parent class walker (code of this repository outside
src/); modelled from the spec: literal text is appended verbatim and a
braces group renders as its children concatenated.  A macro node goes
through `macroNodeToText` (src/format.py lines 339-452). -/
def renderNode : Node → Rng → String × Rng
  | .text s, r => (s, r)
  | .group cs, r => nodelistToText cs r
  | .macroN name argd, r => macroNodeToText name argd r

/-- `nodelist_to_text` on a node list; modelled from the spec: per-node
outputs concatenated in order, with the oracle stream threaded
left-to-right. -/
def nodelistToText : NodeList → Rng → String × Rng
  | .nil, r => ("", r)
  | .cons n ns, r =>
      let p := renderNode n r
      let q := nodelistToText ns p.2
      (p.1 ++ q.1, q.2)

/-- `nodelist_to_text([entry])` for one `argnlist` entry; modelled from
the spec / parent class: a `None` entry renders as empty text. -/
def renderArg : Arg → Rng → String × Rng
  | .absent, r => ("", r)
  | .present n, r => renderNode n r

/-- `_custom_sqrt_handler` (src/format.py lines 137-246) on a present
`argnlist`: draw `sqrt_rng`, render the index (when the list has at
least two entries and the first is present) and the radicand, then
`sqrtFormat`. -/
def sqrtArgs : ArgList → Rng → String × Rng
  | .nil, r => ("", r)
  | .cons (.present n0) (.cons b _), r =>
      let sq := randint01 r
      let pidx := renderNode n0 sq.2
      let pc := renderArg b pidx.2
      sqrtFormat sq.1 (some pidx.1) pc.1 pc.2
  | .cons .absent (.cons b _), r =>
      let sq := randint01 r
      let pc := renderArg b sq.2
      sqrtFormat sq.1 none pc.1 pc.2
  | .cons a .nil, r =>
      let sq := randint01 r
      let pc := renderArg a sq.2
      sqrtFormat sq.1 none pc.1 pc.2

/-- `_custom_frac_handler` (src/format.py lines 248-265) on a present
`argnlist`: empty string on fewer than two entries; otherwise render
numerator then denominator and wrap BOTH in parentheses when either is
complex. -/
def fracArgs : ArgList → Rng → String × Rng
  | .cons a (.cons b _), r =>
      let pn := renderArg a r
      let pd := renderArg b pn.2
      (if isComplex pn.1 ∨ isComplex pd.1 then
        "(" ++ pn.1 ++ ")/(" ++ pd.1 ++ ")"
      else pn.1 ++ "/" ++ pd.1, pd.2)
  | _, r => ("", r)

/-- `_custom_binom_handler` (src/format.py lines 267-275) on a present
`argnlist`. -/
def binomArgs : ArgList → Rng → String × Rng
  | .cons a (.cons b _), r =>
      let pn := renderArg a r
      let pk := renderArg b pn.2
      ("C(" ++ pn.1 ++ "," ++ pk.1 ++ ")", pk.2)
  | _, r => ("", r)

/-- `_custom_mathrm_handler` (src/format.py lines 277-289) on a present
`argnlist`. -/
def mathrmArgs : ArgList → Rng → String × Rng
  | .nil, r => ("", r)
  | .cons a _, r =>
      let p := renderArg a r
      (if pyStrip p.1.toList = ['e'] then "e" else p.1, p.2)

/-- `_custom_boxed_handler` (src/format.py lines 291-297) on a present
`argnlist`: empty string on an empty list, otherwise the rendered
content wrapped in square brackets. -/
def boxedArgs : ArgList → Rng → String × Rng
  | .nil, r => ("", r)
  | .cons a _, r =>
      let p := renderArg a r
      ("[" ++ p.1 ++ "]", p.2)

/-- `macro_node_to_text` (src/format.py lines 339-452): dispatch on the
macro name.  The final fallthrough to `super().macro_node_to_text(node)`
(lines 451-452) is parent-class code outside src/; modelled from the
spec: an unregistered name falls back to a default handler that renders
the bare construct name as literal text and never raises. -/
def macroNodeToText (name : String) (argd : Argd) (r : Rng) : String × Rng :=
  if name = "_" then
    match argd with
    | .withArgs (.cons a _) =>
        let p := renderArg a r
        ("_(" ++ p.1 ++ ")", p.2)
    | _ => ("_", r)
  else if name = "sqrt" then
    match argd with
    | .noArgd => ("", r)
    | .withArgs l => sqrtArgs l r
  else if name = "frac" ∨ name = "dfrac" ∨ name = "tfrac" then
    match argd with
    | .noArgd => ("", r)
    | .withArgs l => fracArgs l r
  else if name = "binom" then
    match argd with
    | .noArgd => ("", r)
    | .withArgs l => binomArgs l r
  else if name = "mathrm" then
    match argd with
    | .noArgd => ("", r)
    | .withArgs l => mathrmArgs l r
  else if name = "boxed" then
    match argd with
    | .noArgd => ("", r)
    | .withArgs l => boxedArgs l r
  else if name = "text" ∨ name = "textbf" ∨ name = "textit" then
    match argd with
    | .withArgs (.cons a _) => renderArg a r
    | _ => ("", r)
  else if name = "pi" then randChoice ["pi", "π"] r
  else if name = "infty" then randChoice ["infinity", "inf", "∞"] r
  else if (greekTable.lookup name).isSome then randChoice [name, greekSym name] r
  else if name = "times" then ("*", r)
  else if name = "cdot" then ("*", r)
  else if name = "pm" then ("+/-", r)
  else if name = "mp" then ("-/+", r)
  else if name = "approx" then ("~", r)
  else if name = "sim" then ("~=", r)
  else if name = "equiv" then ("===", r)
  else if name = "subseteq" then ("subset=", r)
  else if name = "iff" then ("<=>", r)
  else if name = "mapsto" then ("|->", r)
  else if name = "ldots" ∨ name = "cdots" ∨ name = "dots" then ("...", r)
  else if name = "leq" then ("<=", r)
  else if name = "geq" then (">=", r)
  else if name = "neq" then ("!=", r)
  else if name = "div" then ("÷", r)
  else if name = "subset" then ("⊂", r)
  else if name = "in" then ("∈", r)
  else if name = "cup" then ("∪", r)
  else if name = "cap" then ("∩", r)
  else if name = "emptyset" then ("∅", r)
  else if name = "to" then ("→", r)
  else if name = "quad" then ("    ", r)
  else if name = "qquad" then ("        ", r)
  else if name = "\\" then ("\n", r)
  else if name = "sum" ∨ name = "int" ∨ name = "lim" ∨ name = "prod" ∨ name = "nabla" ∨
      name = "iint" ∨ name = "iiint" ∨ name = "oint" then ("\\" ++ name, r)
  else if name = "mathbb" then
    match argd with
    | .withArgs (.cons a _) => renderArg a r
    | _ => ("", r)
  else if name = "left" ∨ name = "right" then ("", r)
  else if name = "sin" ∨ name = "cos" ∨ name = "tan" ∨ name = "log" ∨ name = "ln" then
    (name, r)
  else if name = "\x7b" then ("\x7b", r)
  else if name = "\x7d" then ("\x7d", r)
  else if name = "n" then ("\n", r)
  else (name, r)
end

/-- `_custom_sqrt_handler` (src/format.py lines 137-246) at the level of
the whole `nodeargd` record: the guard of lines 139-140 returns the
empty string when the record is absent or its `argnlist` is empty. -/
def customSqrtHandler : Argd → Rng → String × Rng
  | .noArgd, r => ("", r)
  | .withArgs l, r => sqrtArgs l r

/-- `_custom_frac_handler` (src/format.py lines 248-265) at the level of
the whole `nodeargd` record (guard at lines 250-251). -/
def customFracHandler : Argd → Rng → String × Rng
  | .noArgd, r => ("", r)
  | .withArgs l, r => fracArgs l r

/-- `_custom_binom_handler` (src/format.py lines 267-275) at the level
of the whole `nodeargd` record (guard at lines 269-270). -/
def customBinomHandler : Argd → Rng → String × Rng
  | .noArgd, r => ("", r)
  | .withArgs l, r => binomArgs l r

/-- `_custom_mathrm_handler` (src/format.py lines 277-289) at the level
of the whole `nodeargd` record (guard at lines 279-280). -/
def customMathrmHandler : Argd → Rng → String × Rng
  | .noArgd, r => ("", r)
  | .withArgs l, r => mathrmArgs l r

/-- `_custom_boxed_handler` (src/format.py lines 291-297) at the level
of the whole `nodeargd` record (guard at lines 293-294). -/
def customBoxedHandler : Argd → Rng → String × Rng
  | .noArgd, r => ("", r)
  | .withArgs l, r => boxedArgs l r

example : renderNode (.text "a") [] = ("a", []) := rfl

example :
    renderNode (.macroN "frac"
      (.withArgs (.cons (.present (.text "a+1")) (.cons (.present (.text "b")) .nil)))) [] =
    ("(a+1)/(b)", []) := rfl

/-- Dispatch of `macro_node_to_text` for the name `frac` (src/format.py
line 350): it reaches `_custom_frac_handler`. -/
theorem renderNode_frac_eq (argd : Argd) (r : Rng) :
    renderNode (.macroN "frac" argd) r = customFracHandler argd r := by
  cases argd <;> rfl

/-- Dispatch of `macro_node_to_text` for the name `sqrt` (src/format.py
line 348): it reaches `_custom_sqrt_handler`. -/
theorem renderNode_sqrt_eq (argd : Argd) (r : Rng) :
    renderNode (.macroN "sqrt" argd) r = customSqrtHandler argd r := by
  cases argd <;> rfl

/-- Dispatch of `macro_node_to_text` for the name `binom` (src/format.py
line 352): it reaches `_custom_binom_handler`. -/
theorem renderNode_binom_eq (argd : Argd) (r : Rng) :
    renderNode (.macroN "binom" argd) r = customBinomHandler argd r := by
  cases argd <;> rfl

/-- Dispatch of `macro_node_to_text` for the name `boxed` (src/format.py
line 356): it reaches `_custom_boxed_handler`. -/
theorem renderNode_boxed_eq (argd : Argd) (r : Rng) :
    renderNode (.macroN "boxed" argd) r = customBoxedHandler argd r := by
  cases argd <;> rfl

/-- A `boxed` construct node around `inner`. -/
def boxedNode (inner : Node) : Node :=
  .macroN "boxed" (.withArgs (.cons (.present inner) .nil))

/-- `k`-fold nesting of `boxed` around a node. -/
def iterBoxed : Nat → Node → Node
  | 0, x => x
  | k + 1, x => boxedNode (iterBoxed k x)

/-- `k` pairs of square brackets around a text. -/
def bracketWrap : Nat → String → String
  | 0, s => s
  | k + 1, s => "[" ++ bracketWrap k s ++ "]"

example : pyFloat "2" = some ⟨2, 1⟩ := by decide

example : pyFloat "2.0" = some ⟨20, 10⟩ := by decide

example : floatEqTwo (pyFloat "2.0") = true := by decide

example : pyFloat "n" = none := by decide

example : pyFloatStr (PyNum.inv ⟨2, 1⟩) = "0.5" := by decide

example : pyFloatStr (PyNum.inv ⟨20, 10⟩) = "0.5" := by decide

/-- C1 (counterexample): the claim says only the complex side of a
fraction is wrapped in parentheses, so that `frac("a+1", "b")` renders
as `"(a+1)/b"`; the code (src/format.py line 263) wraps BOTH sides and
produces `"(a+1)/(b)"`. -/
theorem frac_side_only_paren_counterexample :
    (renderNode (.macroN "frac"
      (.withArgs (.cons (.present (.text "a+1"))
        (.cons (.present (.text "b")) .nil)))) []).1 = "(a+1)/(b)" ∧
    "(a+1)/(b)" ≠ "(a+1)/b" :=
  ⟨rfl, by decide⟩

/-- C1 (amended): for a fraction construct with two mandatory arguments
the renderer renders numerator and denominator independently; if either
side, after trimming, contains one of the operator characters
`+ - * / ^` or a space, it wraps BOTH sides in parentheses (otherwise
neither), joining with `/`.  In particular `frac("a", "b")` yields
`"a/b"` and `frac("a+1", "b")` yields `"(a+1)/(b)"`. -/
theorem frac_parenthesization :
    (∀ (nu de : String) (r : Rng),
      renderNode (.macroN "frac"
        (.withArgs (.cons (.present (.text nu))
          (.cons (.present (.text de)) .nil)))) r =
        (if isComplex nu ∨ isComplex de then "(" ++ nu ++ ")/(" ++ de ++ ")"
         else nu ++ "/" ++ de, r)) ∧
    renderNode (.macroN "frac"
      (.withArgs (.cons (.present (.text "a"))
        (.cons (.present (.text "b")) .nil)))) [] = ("a/b", []) ∧
    renderNode (.macroN "frac"
      (.withArgs (.cons (.present (.text "a+1"))
        (.cons (.present (.text "b")) .nil)))) [] = ("(a+1)/(b)", []) :=
  ⟨fun nu de r => rfl, rfl, rfl⟩

/-- C6: a construct whose name has no registered entry — here the name
`"foo"`, with any parsed-argument record — renders as the bare construct
name as literal text, for every oracle stream, and rendering is a total
function (never raises). -/
theorem unknown_macro_renders_bare_name :
    ∀ (argd : Argd) (r : Rng), renderNode (.macroN "foo" argd) r = ("foo", r) := by
  intro argd r
  cases argd <;> rfl

/-- C7: a boxed construct renders its content wrapped in square
brackets, nesting composes (`k` levels of nesting yield `k` pairs of
brackets around the inner text, for every oracle stream), and
`boxed(boxed("5"))` yields `"[[5]]"`. -/
theorem boxed_nesting :
    (∀ (k : Nat) (s : String) (r : Rng),
      renderNode (iterBoxed k (.text s)) r = (bracketWrap k s, r)) ∧
    renderNode (iterBoxed 2 (.text "5")) [] = ("[[5]]", []) := by
  constructor
  · intro k s r
    induction k with
    | zero => rfl
    | succ k ih =>
        have h : renderNode (iterBoxed (k + 1) (.text s)) r =
            ("[" ++ (renderNode (iterBoxed k (.text s)) r).1 ++ "]",
             (renderNode (iterBoxed k (.text s)) r).2) := rfl
        rw [h, ih]
        rfl
  · rfl

/-- C8: a binomial construct with two mandatory arguments rendering to
texts `n` and `k` renders as exactly `"C(n,k)"`, for every oracle
stream, with the stream returned unchanged (no stochastic draw is
consumed): the output is the same on every call, independent of all
stochastic outcomes. -/
theorem binom_exact :
    ∀ (n k : String) (r : Rng),
      renderNode (.macroN "binom"
        (.withArgs (.cons (.present (.text n))
          (.cons (.present (.text k)) .nil)))) r =
        ("C(" ++ n ++ "," ++ k ++ ")", r) :=
  fun n k r => rfl

/-- C9: each of the `sqrt`, `frac`, `binom`, `mathrm`, `boxed` handlers
returns the empty string, consuming no stochastic draw, when the
parsed-argument record (`nodeargd`) is absent or its `argnlist` holds
fewer entries than the handler's guard requires: emptiness for `sqrt`
(lines 139-140), `mathrm` (lines 279-280) and `boxed` (lines 293-294),
fewer than two entries for `frac` (lines 250-251) and `binom`
(lines 269-270).  All handlers are total functions (never raise). -/
theorem handlers_empty_on_missing_args :
    ∀ (r : Rng) (a : Arg),
      customSqrtHandler .noArgd r = ("", r) ∧
      customSqrtHandler (.withArgs .nil) r = ("", r) ∧
      customFracHandler .noArgd r = ("", r) ∧
      customFracHandler (.withArgs .nil) r = ("", r) ∧
      customFracHandler (.withArgs (.cons a .nil)) r = ("", r) ∧
      customBinomHandler .noArgd r = ("", r) ∧
      customBinomHandler (.withArgs .nil) r = ("", r) ∧
      customBinomHandler (.withArgs (.cons a .nil)) r = ("", r) ∧
      customMathrmHandler .noArgd r = ("", r) ∧
      customMathrmHandler (.withArgs .nil) r = ("", r) ∧
      customBoxedHandler .noArgd r = ("", r) ∧
      customBoxedHandler (.withArgs .nil) r = ("", r) :=
  fun r a => ⟨rfl, rfl, rfl, rfl, rfl, rfl, rfl, rfl, rfl, rfl, rfl, rfl⟩

/-- Every successful `parseDec` has a positive denominator. -/
theorem parseDec_den_pos (cs : List Char) (v : PyNum) (h : parseDec cs = some v) :
    0 < v.den := by
  unfold parseDec at h
  dsimp only at h
  split at h
  · split_ifs at h
    simp only [Option.some.injEq] at h
    subst h
    exact Nat.one_pos
  · split_ifs at h
    simp only [Option.some.injEq] at h
    subst h
    exact pow_pos (by norm_num) _
  · simp at h

/-- `scaleTen` preserves positivity of the denominator. -/
theorem scaleTen_den_pos (v : PyNum) (e : Int) (h : 0 < v.den) :
    0 < (scaleTen v e).den := by
  unfold scaleTen
  split_ifs
  · exact h
  · exact Nat.mul_pos h (pow_pos (by norm_num) _)

/-- Every successful `pyFloatCore` has a positive denominator. -/
theorem pyFloatCore_den_pos (cs : List Char) (v : PyNum) (h : pyFloatCore cs = some v) :
    0 < v.den := by
  unfold pyFloatCore at h
  dsimp only at h
  split at h
  · exact parseDec_den_pos _ _ h
  · split at h
    · rename_i m e hm _
      simp only [Option.some.injEq] at h
      subst h
      exact scaleTen_den_pos _ _ (parseDec_den_pos _ _ hm)
    · simp at h

/-- `PyNum.neg` preserves the denominator. -/
theorem PyNum.neg_den (v : PyNum) : v.neg.den = v.den := rfl

/-- Every value produced by the `float()` model has a positive
denominator, so comparing it with an integer by cross-multiplication is
exact. -/
theorem pyFloat_den_pos (s : String) (v : PyNum) (h : pyFloat s = some v) :
    0 < v.den := by
  unfold pyFloat at h
  split at h
  · simp at h
  · exact pyFloatCore_den_pos _ _ h
  · rcases Option.map_eq_some'.1 h with ⟨w, hw, rfl⟩
    simpa [PyNum.neg_den] using pyFloatCore_den_pos _ _ hw
  · exact pyFloatCore_den_pos _ _ h

/-- A parsed float whose numerator is zero is not equal to 2. -/
theorem floatEqTwo_of_zero (v : PyNum) (hden : 0 < v.den) (h0 : v.num = 0) :
    floatEqTwo (some v) = false := by
  simp only [floatEqTwo, h0, beq_eq_false_iff_ne, ne_eq]
  omega

/-- The five renderings a square root of `x` may take. -/
def sqrtTwoForms : List String :=
  ["sqrt(x)", "x^0.5", "x**0.5", "x^(1/2)", "x**(1/2)"]

/-- With no root index, the rendering of a square root of `x` is one of
the five forms, whatever the stochastic draws. -/
theorem sqrtFormat_none_x_mem (sq : Nat) (r : Rng) :
    (sqrtFormat sq none "x" r).1 ∈ sqrtTwoForms := by
  have hx : needsParentheses "x" = false := by decide
  unfold sqrtFormat
  dsimp only
  split_ifs <;> (try simp_all) <;> decide

/-- With the literal root index text `"2"`, the rendering of a square
root of `x` is one of the five forms, whatever the stochastic draws. -/
theorem sqrtFormat_two_x_mem (sq : Nat) (r : Rng) :
    (sqrtFormat sq (some "2") "x" r).1 ∈ sqrtTwoForms := by
  have hx : needsParentheses "x" = false := by decide
  have h2 : pyFloat "2" = some ⟨2, 1⟩ := by decide
  have hs : pyFloatStr (PyNum.inv ⟨2, 1⟩) = "0.5" := by decide
  have hd : decimalPartOf "0.5" = "5" := by decide
  unfold sqrtFormat
  dsimp only
  rw [h2]
  dsimp only
  rw [hs, hd]
  split_ifs <;> (try simp_all) <;> decide

/-- C4 (counterexample): the claim quantifies over every index that
parses to the number 2, but the literal-fraction exponent uses the index
text verbatim, so the index text `"2.0"` — which parses to 2, as the
first conjunct shows — can produce `"x^(1/2.0)"`, outside the claimed
five-string set (oracle stream `[1, 0, 1]`: `sqrt_rng = 1`,
`exp_rng = 0`, `decimal_rng = 1`). -/
theorem sqrt_index_two_text_counterexample :
    floatEqTwo (pyFloat "2.0") = true ∧
    (renderNode (.macroN "sqrt" (.withArgs (.cons (.present (.text "2.0"))
      (.cons (.present (.text "x")) .nil)))) [1, 0, 1]).1 = "x^(1/2.0)" ∧
    "x^(1/2.0)" ∉ sqrtTwoForms :=
  ⟨by decide, rfl, by decide⟩

/-- C4 (amended): for a root construct over radicand text `"x"` whose
index is absent (either a two-slot `argnlist` with the optional slot
`None`, or a single-slot `argnlist`) or is given with the literal text
`"2"`, the rendered output is always one of the five strings
`"sqrt(x)"`, `"x^0.5"`, `"x**0.5"`, `"x^(1/2)"`, `"x**(1/2)"`, for
every sequence of stochastic outcomes. -/
theorem sqrt_two_membership :
    ∀ (r : Rng),
      (renderNode (.macroN "sqrt" (.withArgs (.cons .absent
        (.cons (.present (.text "x")) .nil)))) r).1 ∈ sqrtTwoForms ∧
      (renderNode (.macroN "sqrt"
        (.withArgs (.cons (.present (.text "x")) .nil))) r).1 ∈ sqrtTwoForms ∧
      (renderNode (.macroN "sqrt" (.withArgs (.cons (.present (.text "2"))
        (.cons (.present (.text "x")) .nil)))) r).1 ∈ sqrtTwoForms := by
  intro r
  refine ⟨?_, ?_, ?_⟩
  · exact sqrtFormat_none_x_mem (randint01 r).1 (randint01 r).2
  · exact sqrtFormat_none_x_mem (randint01 r).1 (randint01 r).2
  · exact sqrtFormat_two_x_mem (randint01 r).1 (randint01 r).2

/-- C5: for a root construct whose given index text fails to parse as a
number, the handler (a total function: it never raises) falls back to
the literal fraction exponent `"(1/" ++ idx ++ ")"` with the unparsed
index text verbatim, combined with `"^"` or `"**"` according to the
`exp_rng` draw, and with the radicand wrapped in parentheses exactly
when its rendering contains one of `+ - * / ^` or a space
(`needsParentheses`). -/
theorem sqrt_unparsable_index_fallback :
    ∀ (idx cont : String) (r : Rng), pyFloat idx = none →
      renderNode (.macroN "sqrt" (.withArgs (.cons (.present (.text idx))
        (.cons (.present (.text cont)) .nil)))) r =
      ((if needsParentheses cont then "(" ++ cont ++ ")" else cont) ++
        (if (randint01 ((randint01 r).2)).1 = 0 then "^" else "**") ++
        ("(1/" ++ idx ++ ")"),
       (randint01 ((randint01 r).2)).2) := by
  intro idx cont r h
  show sqrtFormat (randint01 r).1 (some idx) cont (randint01 r).2 = _
  unfold sqrtFormat
  dsimp only
  rw [h]
  simp [floatEqTwo]

/-- Witness for C5 at the index text `"n"` (not a number) over radicand
`"x"` with the empty oracle stream: the output is `"x^(1/n)"`. -/
theorem sqrt_unparsable_index_fallback_witness :
    pyFloat "n" = none ∧
    renderNode (.macroN "sqrt" (.withArgs (.cons (.present (.text "n"))
      (.cons (.present (.text "x")) .nil)))) [] = ("x^(1/n)", []) := by
  refine ⟨by decide, ?_⟩
  have h := sqrt_unparsable_index_fallback "n" "x" [] (by decide)
  exact h.trans (by decide)

/-- C10 (counterexample): the claim fixes the exponent text `"(1/0)"`
for every index text parsing to the number 0, but the fallback uses the
index text verbatim: index text `"0.0"` parses to 0 (first conjunct) yet
renders with exponent `"(1/0.0)"`, not `"(1/0)"`. -/
theorem sqrt_zero_index_text_counterexample :
    pyFloat "0.0" = some ⟨0, 10⟩ ∧
    (renderNode (.macroN "sqrt" (.withArgs (.cons (.present (.text "0.0"))
      (.cons (.present (.text "x")) .nil)))) []).1 = "x^(1/0.0)" ∧
    "x^(1/0.0)" ≠ "x^(1/0)" ∧ "x^(1/0.0)" ≠ "x**(1/0)" :=
  ⟨by decide, rfl, by decide, by decide⟩

/-- C10 (amended): for a root construct whose index text parses to the
number 0, rendering never raises (the division by zero is caught, as a
total function of the oracle stream): the output uses the literal
fraction exponent `"(1/" ++ idx ++ ")"` with the index text verbatim —
in particular `"(1/0)"` when the index text is `"0"` — combined
stochastically with `"^"` or `"**"`, the radicand parenthesized exactly
when `needsParentheses` holds of it. -/
theorem sqrt_zero_index_fallback :
    ∀ (idx cont : String) (r : Rng) (v : PyNum),
      pyFloat idx = some v → v.num = 0 →
      renderNode (.macroN "sqrt" (.withArgs (.cons (.present (.text idx))
        (.cons (.present (.text cont)) .nil)))) r =
      ((if needsParentheses cont then "(" ++ cont ++ ")" else cont) ++
        (if (randint01 ((randint01 r).2)).1 = 0 then "^" else "**") ++
        ("(1/" ++ idx ++ ")"),
       (randint01 ((randint01 r).2)).2) := by
  intro idx cont r v h h0
  have hden := pyFloat_den_pos idx v h
  have hf : floatEqTwo (pyFloat idx) = false := by
    rw [h]
    exact floatEqTwo_of_zero v hden h0
  show sqrtFormat (randint01 r).1 (some idx) cont (randint01 r).2 = _
  unfold sqrtFormat
  dsimp only
  rw [hf, h]
  simp [h0]

/-- Witness for C10 at the index text `"0"` over radicand `"x"` with
the empty oracle stream: the output is `"x^(1/0)"`. -/
theorem sqrt_zero_index_fallback_witness :
    pyFloat "0" = some ⟨0, 1⟩ ∧ (⟨0, 1⟩ : PyNum).num = 0 ∧
    renderNode (.macroN "sqrt" (.withArgs (.cons (.present (.text "0"))
      (.cons (.present (.text "x")) .nil)))) [] = ("x^(1/0)", []) := by
  refine ⟨by decide, by decide, ?_⟩
  have h := sqrt_zero_index_fallback "0" "x" [] ⟨0, 1⟩ (by decide) (by decide)
  exact h.trans (by decide)

end FormatPy
